import Mathlib

/-!
Verification of `psico/minimizing.py` (pymol-psico).

The module is embedded shallowly:

* `get_fixed_indices` is a pure function over the list of per-atom flag
  words obtained in selection iteration order (the Python code collects
  `flags & 0x8` per atom via `iterate_state` and keeps the truthy positions).
* `randomize_coords_if_collapsed` is modelled over exact reals; the numpy
  random sample is an explicit parameter `rand : ℕ → Fin 3 → ℝ` whose values
  are assumed to lie in `[0, 1)` (the semantics of
  `numpy.random.random_sample`), and the function returns `none` when the
  Python code returns without calling `load_coords`, or `some out` when it
  writes `out` back to the same selection and state.
* The stateful pipeline (`load_or_update`, `minimize_ob`, `minimize_rdkit`,
  `clean_ob`) is given a trace semantics: each function produces the list of
  scene/engine events it performs together with an `Except` result that is
  `Except.error` exactly when the Python function lets an exception
  propagate.  Outcomes of the external collaborators (the host `cmd` calls
  and the two engines) are supplied by an `Env` record: `natoms` is the
  result of `cmd.select`, `flags` the per-atom flag words, `ffFound` whether
  `OBForceField.FindForceField` returns a force field, `molParseOk` whether
  RDKit parses the mol block, `ffSetupOk` whether the RDKit force-field
  object is not `None`, `xfitOut` the outcome of
  `from psico.fitting import xfit; xfit(...)` (an `ImportError` anywhere in
  those two statements, success, or any other exception with its message),
  `fitFails` whether the fallback `cmd.fit` raises, and `rdConverged`
  whether RDKit `ff.Minimize` returns 0.  `unusedSele` and `unusedMin`
  model `cmd.get_unused_name` for the temporary selection and the temporary
  minimized object.
-/

namespace Psico

/-- One per-atom step of `get_fixed_indices`: the Python code appends
`flags & 0x8` for every atom, then keeps the indices with a truthy value. -/
def get_fixed_indices (flags : List ℕ) : List ℕ :=
  (((flags.map (fun f => f &&& 0x8)).enum).filter (fun p => p.2 != 0)).map Prod.fst

/-- A 3D point, one atom's coordinates. -/
abbrev Point : Type := ℝ × ℝ × ℝ

def xc (p : Point) : ℝ := p.1

def yc (p : Point) : ℝ := p.2.1

def zc (p : Point) : ℝ := p.2.2

/-- Arithmetic mean of a list of reals (`numpy` mean along an axis). -/
noncomputable def mean (xs : List ℝ) : ℝ := xs.sum / xs.length

/-- Population standard deviation (`numpy.std` default, `ddof = 0`). -/
noncomputable def popStd (xs : List ℝ) : ℝ :=
  Real.sqrt ((xs.map (fun x => (x - mean xs) ^ 2)).sum / xs.length)

/-- Per-axis standard deviation summed across axes: `coords.std(0).sum()`. -/
noncomputable def stdSum (coords : List Point) : ℝ :=
  popStd (coords.map xc) + popStd (coords.map yc) + popStd (coords.map zc)

/-- Element `i` of `numpy.linspace(0, 2 * pi, n, False)`. -/
noncomputable def angle (n i : ℕ) : ℝ := 2 * Real.pi * i / n

/-- The circle radius `len(coords) ** (1 / 3.)` used by the fancy strategy. -/
noncomputable def width (n : ℕ) : ℝ := (n : ℝ) ^ ((1 : ℝ) / 3)

open Classical in
/-- The guard `randomize_coords_if_collapsed`.  Returns `none` when the function
returns without writing (`len(coords) < 2 or coords.std(0).sum() > 1e-3`),
otherwise `some out` where `out` is written back by `load_coords` to the
same selection and state.  `rand i a` is the uniform sample in `[0, 1)`
drawn by `numpy.random.random_sample` for point `i`, axis `a`. -/
noncomputable def randomize_coords_if_collapsed (coords : List Point) (fancy : Bool)
    (rand : ℕ → Fin 3 → ℝ) : Option (List Point) :=
  if coords.length < 2 ∨ stdSum coords > 1e-3 then
    none
  else
    let n := coords.length
    let base : List Point :=
      if fancy then
        List.ofFn (fun i : Fin n =>
          let p := coords.get i
          (xc p + Real.sin (angle n i) * width n,
           yc p + Real.cos (angle n i) * width n,
           zc p))
      else coords
    some (List.ofFn (fun i : Fin base.length =>
      let p := base.get i
      (xc p + (rand i 0 - 0.5),
       yc p + (rand i 1 - 0.5),
       zc p + (rand i 2 - 0.5))))

/-- Scene and engine events, in program order. -/
inductive Ev where
  | select (sele target : String)
  | flagSet (flagName sel : String)
  | flagClear (flagName sel : String)
  | guardCall (sele : String) (state : ℤ)
  | getStr (sele : String) (state : ℤ)
  | addHydrogens
  | deleteAddedHydrogens
  | addAtomConstraint (idx : ℕ)
  | addFixedPoint (idx : ℕ)
  | steepestDescent (n : ℕ) (conv : ℚ)
  | conjugateGradients (n : ℕ) (conv : ℚ)
  | rdMinimize (n : ℕ)
  | loadRaw (objName : String)
  | xfitCall (objName sel : String) (cycles : ℕ)
  | fitCall (objName sel : String) (cycles : ℕ)
  | updateCoords (sel objName : String) (state : ℤ)
  | deleteObj (objName : String)
  | lockAcquire
  | lockRelease
  | logMsg (msg : String)
  deriving DecidableEq

/-- Exceptions that propagate out of a call. -/
inductive Err where
  | cmdException (msg : String)
  | pyException (msg : String)
  deriving DecidableEq

/-- Outcome of `from psico.fitting import xfit; xfit(...)`: an
`ImportError` raised by either statement, success, or any other
exception (with its message). -/
inductive XfitOut where
  | importError
  | ok
  | fails (msg : String)
  deriving DecidableEq

/-- Outcomes of the external collaborators for one invocation. -/
structure Env where
  unusedSele : String
  unusedMin : String
  natoms : ℕ
  flags : List ℕ
  ffFound : Bool
  molParseOk : Bool
  ffSetupOk : Bool
  xfitOut : XfitOut
  fitFails : Bool
  rdConverged : Bool

def _load_or_update (env : Env) (name sele : String) (state : ℤ) :
    List Ev × Except Err Unit :=
  let update := name = ""
  let name1 := if update then env.unusedMin else name
  let t1 := (if update then ([] : List Ev) else [Ev.deleteObj name]) ++ [Ev.loadRaw name1]
  let tail := if update then [Ev.updateCoords sele name1 state, Ev.deleteObj name1] else []
  match env.xfitOut with
  | XfitOut.ok => (t1 ++ [Ev.xfitCall name1 sele 100] ++ tail, Except.ok ())
  | XfitOut.importError =>
      if env.fitFails then
        (t1 ++ [Ev.fitCall name1 sele 5], Except.error (Err.pyException "fit failed"))
      else
        (t1 ++ [Ev.fitCall name1 sele 5] ++ tail, Except.ok ())
  | XfitOut.fails msg =>
      (t1 ++ [Ev.xfitCall name1 sele 100, Ev.logMsg ("xfit failed: " ++ msg)] ++ tail,
        Except.ok ())

/-- Runs `_load_or_update` inside the host lock (`with _self.lockcm`); the
lock is released even when the body raises. -/
def load_or_update (env : Env) (name sele : String) (state : ℤ) :
    List Ev × Except Err Unit :=
  let lu := _load_or_update env name sele state
  (Ev.lockAcquire :: lu.1 ++ [Ev.lockRelease], lu.2)

def minimize_ob (env : Env) (selection : String) (state : ℤ) (ffname : String)
    (nsteps : ℕ) (conv : ℚ) (name : String) (quiet : Bool) :
    List Ev × Except Err Unit :=
  let sele := env.unusedSele
  let t0 := [Ev.select sele selection]
  if env.natoms = 0 then
    (t0 ++ [Ev.deleteObj sele], Except.error (Err.cmdException "empty selection"))
  else
    let t1 := t0 ++ [Ev.guardCall sele state, Ev.getStr sele state, Ev.addHydrogens]
      ++ (get_fixed_indices env.flags).map (fun idx => Ev.addAtomConstraint (idx + 1))
    if env.ffFound = false then
      (t1 ++ [Ev.deleteObj sele],
        Except.error (Err.cmdException "FindForceField returned None"))
    else
      let t2 := t1 ++ [Ev.steepestDescent (nsteps / 2) conv,
        Ev.conjugateGradients (nsteps / 2) conv, Ev.deleteAddedHydrogens]
      let lr := load_or_update env name sele state
      match lr.2 with
      | Except.error e => (t2 ++ lr.1 ++ [Ev.deleteObj sele], Except.error e)
      | Except.ok _ =>
          (t2 ++ lr.1 ++ (if quiet then [] else [Ev.logMsg "Energy"]) ++ [Ev.deleteObj sele],
            Except.ok ())

def minimize_rdkit (env : Env) (selection : String) (state : ℤ) (ffname : String)
    (nsteps : ℕ) (name : String) (quiet : Bool) :
    List Ev × Except Err Unit :=
  let sele := env.unusedSele
  let t0 := [Ev.select sele selection]
  if env.natoms = 0 then
    (t0 ++ [Ev.deleteObj sele], Except.error (Err.cmdException "empty selection"))
  else
    let t1 := t0 ++ [Ev.guardCall sele state, Ev.getStr sele state]
    if env.molParseOk = false then
      (t1 ++ [Ev.deleteObj sele],
        Except.error (Err.cmdException "Failed to load molecule into RDKit"))
    else if ffname.startsWith "MMFF" ∨ ffname = "UFF" then
      if env.ffSetupOk = false then
        (t1 ++ [Ev.deleteObj sele], Except.error (Err.cmdException "forcefield setup failed"))
      else
        let t2 := t1 ++ (get_fixed_indices env.flags).map (fun idx => Ev.addFixedPoint idx)
          ++ [Ev.rdMinimize nsteps]
          ++ (if env.rdConverged then []
              else [Ev.logMsg "Warning: minimization did not converge"])
        let lr := load_or_update env name sele state
        match lr.2 with
        | Except.error e => (t2 ++ lr.1 ++ [Ev.deleteObj sele], Except.error e)
        | Except.ok _ =>
            (t2 ++ lr.1 ++ (if quiet then [] else [Ev.logMsg "Energy"])
              ++ [Ev.deleteObj sele], Except.ok ())
    else
      (t1 ++ [Ev.deleteObj sele], Except.error (Err.cmdException "unknown forcefield"))

def clean_ob (env : Env) (selection present : String) (state : ℤ) (method : String) :
    List Ev × Except Err Unit :=
  let pre : List Ev :=
    if present = "" then []
    else [Ev.flagSet "fix" present, Ev.flagClear "fix" selection]
  let selection1 :=
    if present = "" then selection
    else "(" ++ selection ++ ")|(" ++ present ++ ")"
  let ffname := if method = "mmff" then "MMFF94" else method
  let mo := minimize_ob env selection1 state ffname 50 (1 / 10000) "" true
  match mo.2 with
  | Except.error e => (pre ++ mo.1, Except.error e)
  | Except.ok _ =>
      (pre ++ mo.1 ++ (if present = "" then [] else [Ev.flagClear "fix" present]),
        Except.ok ())

/-- Event classifiers used to state trace properties. -/
def isFitCall : Ev → Bool
  | Ev.fitCall _ _ _ => true
  | _ => false

def isLog : Ev → Bool
  | Ev.logMsg _ => true
  | _ => false

def isConstraintOb : Ev → Bool
  | Ev.addAtomConstraint _ => true
  | _ => false

def isFixedPoint : Ev → Bool
  | Ev.addFixedPoint _ => true
  | _ => false

def isMinStep : Ev → Bool
  | Ev.steepestDescent _ _ => true
  | Ev.conjugateGradients _ _ => true
  | Ev.rdMinimize _ => true
  | _ => false

/-- Environment where the selection resolves to zero atoms. -/
def envEmpty : Env :=
  { unusedSele := "_sele01", unusedMin := "_minimized01", natoms := 0, flags := [],
    ffFound := true, molParseOk := true, ffSetupOk := true, xfitOut := XfitOut.ok,
    fitFails := false, rdConverged := true }

/-- Environment where every external call succeeds. -/
def envOk : Env :=
  { unusedSele := "_sele01", unusedMin := "_minimized01", natoms := 3, flags := [8, 0, 9],
    ffFound := true, molParseOk := true, ffSetupOk := true, xfitOut := XfitOut.ok,
    fitFails := false, rdConverged := true }

/-- Environment where `xfit` raises a non-`ImportError` exception. -/
def envXfitFails : Env :=
  { envOk with xfitOut := XfitOut.fails "boom" }

/-- Environment where the `xfit` import fails and the fallback fit raises. -/
def envFitFails : Env :=
  { envOk with xfitOut := XfitOut.importError, fitFails := true }

/-- Environment where the `xfit` import fails and the fallback fit succeeds. -/
def envImportErr : Env :=
  { envOk with xfitOut := XfitOut.importError }

/-- Helper: the reconciler trace contains no event satisfying `p` when `p`
rejects every event kind the reconciler can emit. -/
theorem lou_filter_none (env : Env) (name sele : String) (state : ℤ) (p : Ev → Bool)
    (hdel : ∀ s, p (Ev.deleteObj s) = false)
    (hload : ∀ s, p (Ev.loadRaw s) = false)
    (hxfit : ∀ a b c, p (Ev.xfitCall a b c) = false)
    (hfit : ∀ a b c, p (Ev.fitCall a b c) = false)
    (hupd : ∀ a b c, p (Ev.updateCoords a b c) = false)
    (hlock1 : p Ev.lockAcquire = false) (hlock2 : p Ev.lockRelease = false)
    (hlog : ∀ m, p (Ev.logMsg m) = false) :
    (load_or_update env name sele state).1.filter p = [] := by
  unfold load_or_update _load_or_update
  cases env.xfitOut <;> by_cases h : name = "" <;> by_cases hf : env.fitFails <;>
    simp [h, hf, hdel, hload, hxfit, hfit, hupd, hlock1, hlock2, hlog]

/-- Claim C6: `get_fixed_indices` returns exactly the 0-based positions, in the
selection's iteration order, of atoms whose fixed flag bit `0x8` is set;
every returned index is below the number of atoms; the result is empty for
an empty selection or when no atom is fixed.  The embedding is a pure
function of the per-atom flag list, so the call has no side effects and
cannot fail on an empty selection. -/
theorem get_fixed_indices_spec (flags : List ℕ) :
    (∀ i, i ∈ get_fixed_indices flags ↔
      ∃ h : i < flags.length, flags.get ⟨i, h⟩ &&& 0x8 ≠ 0) ∧
    (∀ i ∈ get_fixed_indices flags, i < flags.length) ∧
    get_fixed_indices [] = [] ∧
    ((∀ f ∈ flags, f &&& 0x8 = 0) → get_fixed_indices flags = []) := by
  have hmem : ∀ i, i ∈ get_fixed_indices flags ↔
      ∃ h : i < flags.length, flags.get ⟨i, h⟩ &&& 0x8 ≠ 0 := by
    intro i
    simp only [get_fixed_indices, List.mem_map, List.mem_filter,
      List.mem_enum_iff_getElem?, bne_iff_ne, ne_eq]
    constructor
    · rintro ⟨⟨j, v⟩, ⟨hget, hv⟩, rfl⟩
      simp only [List.getElem?_map] at hget
      rcases Option.map_eq_some'.mp hget with ⟨w, hw, hwv⟩
      have hj : j < flags.length := by
        by_contra hc
        rw [List.getElem?_eq_none (by omega)] at hw
        exact Option.noConfusion hw
      refine ⟨hj, ?_⟩
      have : flags.get ⟨j, hj⟩ = w := by
        have := List.getElem?_eq_getElem hj
        rw [this] at hw
        simpa [List.get_eq_getElem] using Option.some.inj hw
      rw [this, hwv]
      exact hv
    · rintro ⟨hj, hv⟩
      refine ⟨⟨i, flags.get ⟨i, hj⟩ &&& 0x8⟩, ⟨?_, hv⟩, rfl⟩
      simp only [List.getElem?_map]
      rw [List.getElem?_eq_getElem hj]
      simp [List.get_eq_getElem]
  refine ⟨hmem, ?_, rfl, ?_⟩
  · intro i hi
    rcases (hmem i).mp hi with ⟨h, _⟩
    exact h
  · intro hall
    rw [List.eq_nil_iff_forall_not_mem]
    intro i hi
    rcases (hmem i).mp hi with ⟨h, hv⟩
    exact hv (hall _ (flags.get_mem i h))

/-- Witness for C6 at a concrete flag list: atoms 1 and 3 carry the fixed
bit (`8` and `24 = 0x18`), atom 2 has only bit 0 set. -/
theorem get_fixed_indices_spec_witness :
    (1 ∈ get_fixed_indices [0, 8, 1, 24] ↔
      ∃ h : 1 < ([0, 8, 1, 24] : List ℕ).length,
        ([0, 8, 1, 24] : List ℕ).get ⟨1, h⟩ &&& 0x8 ≠ 0) ∧
    get_fixed_indices [0, 8, 1, 24] = [1, 3] :=
  ⟨(get_fixed_indices_spec [0, 8, 1, 24]).1 1, by decide⟩

/-- Claim C8: with an empty selection both adapters raise `empty selection`
immediately: the trace consists of only the creation of the temporary
selection and its cleanup delete (so export, guard, constraints,
minimization and reconciliation are all skipped), and the error still
propagates to the caller after the delete. -/
theorem adapter_empty_selection (env : Env) (selection : String) (state : ℤ)
    (ffname : String) (nsteps : ℕ) (conv : ℚ) (name : String) (quiet : Bool)
    (hn : env.natoms = 0) :
    minimize_ob env selection state ffname nsteps conv name quiet =
      ([Ev.select env.unusedSele selection, Ev.deleteObj env.unusedSele],
        Except.error (Err.cmdException "empty selection")) ∧
    minimize_rdkit env selection state ffname nsteps name quiet =
      ([Ev.select env.unusedSele selection, Ev.deleteObj env.unusedSele],
        Except.error (Err.cmdException "empty selection")) := by
  constructor <;> simp [minimize_ob, minimize_rdkit, hn]

/-- Witness for C8: the zero-atom environment, Engine A and Engine B. -/
theorem adapter_empty_selection_witness :
    envEmpty.natoms = 0 ∧
    minimize_ob envEmpty "all" (-1) "UFF" 500 (1 / 10000) "" true =
      ([Ev.select "_sele01" "all", Ev.deleteObj "_sele01"],
        Except.error (Err.cmdException "empty selection")) ∧
    minimize_rdkit envEmpty "all" (-1) "MMFF94" 200 "" true =
      ([Ev.select "_sele01" "all", Ev.deleteObj "_sele01"],
        Except.error (Err.cmdException "empty selection")) :=
  ⟨rfl, (adapter_empty_selection envEmpty "all" (-1) "UFF" 500 (1 / 10000) "" true rfl).1,
    (adapter_empty_selection envEmpty "all" (-1) "MMFF94" 200 (1 / 10000) "" true rfl).2⟩

/-- Claim C10: Engine A runs `nsteps / 2` steepest-descent iterations followed by
`nsteps / 2` conjugate-gradient iterations, both with the same convergence
threshold, so the total budget is `2 * (nsteps / 2)` — one step fewer than
`nsteps` when `nsteps` is odd. -/
theorem minimize_ob_step_budget (env : Env) (selection : String) (state : ℤ)
    (ffname : String) (nsteps : ℕ) (conv : ℚ) (name : String) (quiet : Bool)
    (hn : ¬env.natoms = 0) (hff : env.ffFound = true) :
    (minimize_ob env selection state ffname nsteps conv name quiet).1.filter isMinStep =
      [Ev.steepestDescent (nsteps / 2) conv, Ev.conjugateGradients (nsteps / 2) conv] ∧
    nsteps / 2 + nsteps / 2 = nsteps - nsteps % 2 ∧
    (nsteps % 2 = 1 → nsteps / 2 + nsteps / 2 + 1 = nsteps) := by
  have hlou := lou_filter_none env name env.unusedSele state isMinStep
    (fun _ => rfl) (fun _ => rfl) (fun _ _ _ => rfl) (fun _ _ _ => rfl)
    (fun _ _ _ => rfl) rfl rfl (fun _ => rfl)
  refine ⟨?_, by omega, by omega⟩
  cases hlr : (load_or_update env name env.unusedSele state).2 <;>
    by_cases hq : quiet <;>
    simp [minimize_ob, hn, hff, hlr, hq, List.filter_append, hlou,
      isMinStep, List.filter_map, Function.comp]

/-- Witness for C10: odd step budget 501 in the all-good environment. -/
theorem minimize_ob_step_budget_witness :
    ¬envOk.natoms = 0 ∧ envOk.ffFound = true ∧
    ((minimize_ob envOk "all" (-1) "UFF" 501 (1 / 10000) "" true).1.filter isMinStep =
      [Ev.steepestDescent 250 (1 / 10000), Ev.conjugateGradients 250 (1 / 10000)] ∧
    501 / 2 + 501 / 2 = 501 - 501 % 2 ∧
    (501 % 2 = 1 → 501 / 2 + 501 / 2 + 1 = 501)) :=
  ⟨by decide, rfl,
    minimize_ob_step_budget envOk "all" (-1) "UFF" 501 (1 / 10000) "" true (by decide) rfl⟩

/-- Claim C1 counterexample: with `present = "P"` and a minimization call that
raises (here it raises `empty selection`), `clean_ob` sets the fix flag on
`present` and clears it on the primary selection, but the final
`flag('fix', present, 'clear')` is skipped: the call to `minimize_ob` is
not wrapped in `try/finally`, so the flag on `present` is left set while
the error propagates — the clearing is not a guaranteed cleanup step. -/
theorem clean_ob_error_skips_flag_clear :
    (clean_ob envEmpty "S" "P" (-1) "mmff").2 =
        Except.error (Err.cmdException "empty selection") ∧
    Ev.flagSet "fix" "P" ∈ (clean_ob envEmpty "S" "P" (-1) "mmff").1 ∧
    Ev.flagClear "fix" "S" ∈ (clean_ob envEmpty "S" "P" (-1) "mmff").1 ∧
    Ev.flagClear "fix" "P" ∉ (clean_ob envEmpty "S" "P" (-1) "mmff").1 :=
  ⟨rfl, by decide, by decide, by decide⟩

/-- Claim C1 (amended): when `present` is non-empty, `clean_ob` sets the fix flag
on `present`'s atoms and clears it on the primary selection before the
minimization call, and clears the flag on `present` again after
minimization in every execution in which the minimization call returns
without raising; when minimization raises, the error propagates and the
final clear is skipped. -/
theorem clean_ob_flag_protocol (env : Env) (selection present : String) (state : ℤ)
    (method : String) (hp : ¬present = "")
    (hok : (minimize_ob env ("(" ++ selection ++ ")|(" ++ present ++ ")") state
        (if method = "mmff" then "MMFF94" else method) 50 (1 / 10000) "" true).2 =
      Except.ok ()) :
    clean_ob env selection present state method =
      ([Ev.flagSet "fix" present, Ev.flagClear "fix" selection] ++
        (minimize_ob env ("(" ++ selection ++ ")|(" ++ present ++ ")") state
          (if method = "mmff" then "MMFF94" else method) 50 (1 / 10000) "" true).1 ++
        [Ev.flagClear "fix" present], Except.ok ()) := by
  unfold clean_ob
  simp only [hp, if_false, ite_false]
  rw [hok]

/-- Witness for C1 (amended) in the all-good environment. -/
theorem clean_ob_flag_protocol_witness :
    ¬("P" : String) = "" ∧
    clean_ob envOk "S" "P" (-1) "mmff" =
      ([Ev.flagSet "fix" "P", Ev.flagClear "fix" "S"] ++
        (minimize_ob envOk "(S)|(P)" (-1) "MMFF94" 50 (1 / 10000) "" true).1 ++
        [Ev.flagClear "fix" "P"], Except.ok ()) :=
  ⟨by decide, clean_ob_flag_protocol envOk "S" "P" (-1) "mmff" (by decide) rfl⟩

/-- Claim C2 counterexample: when `xfit` raises a non-`ImportError` exception
(message `boom`), the code logs the failure immediately and never attempts
the five-iteration fallback fit: the fallback is reached only from the
`except ImportError` arm, so it does not run "whenever the preferred
method fails", and the failure is logged even though the fallback was
never tried (let alone failed). -/
theorem xfit_failure_without_fallback :
    (_load_or_update envXfitFails "" "sel" 1).1.filter isFitCall = [] ∧
    (_load_or_update envXfitFails "" "sel" 1).1.filter isLog =
      [Ev.logMsg "xfit failed: boom"] ∧
    (_load_or_update envXfitFails "" "sel" 1).2 = Except.ok () :=
  ⟨by decide, by decide, rfl⟩

/-- Claim C2 (amended): the fallback five-iteration fit (no correspondence
matching) runs exactly when the preferred method is unavailable
(`ImportError` raised by importing or calling `xfit`); any other failure
of `xfit` is logged once and execution continues without alignment and
without attempting the fallback (in update mode the coordinate merge still
happens); and when the fallback itself fails, its exception propagates
instead of being logged. -/
theorem load_or_update_fit_policy (env : Env) (name sele : String) (state : ℤ) :
    (env.xfitOut = XfitOut.importError →
      (_load_or_update env name sele state).1.filter isFitCall =
        [Ev.fitCall (if name = "" then env.unusedMin else name) sele 5] ∧
      (_load_or_update env name sele state).1.filter isLog = [] ∧
      (env.fitFails = true →
        (_load_or_update env name sele state).2 =
          Except.error (Err.pyException "fit failed")) ∧
      (env.fitFails = false →
        (_load_or_update env name sele state).2 = Except.ok ())) ∧
    (∀ msg, env.xfitOut = XfitOut.fails msg →
      (_load_or_update env name sele state).1.filter isFitCall = [] ∧
      (_load_or_update env name sele state).1.filter isLog =
        [Ev.logMsg ("xfit failed: " ++ msg)] ∧
      (_load_or_update env name sele state).2 = Except.ok () ∧
      (name = "" →
        Ev.updateCoords sele env.unusedMin state ∈ (_load_or_update env name sele state).1)) ∧
    (env.xfitOut = XfitOut.ok →
      (_load_or_update env name sele state).1.filter isFitCall = [] ∧
      (_load_or_update env name sele state).1.filter isLog = []) := by
  cases hx : env.xfitOut <;> by_cases h : name = "" <;> by_cases hf : env.fitFails <;>
    simp [_load_or_update, hx, h, hf, isFitCall, isLog]

/-- Witness for C2 (amended): preferred method unavailable, fallback runs
and succeeds. -/
theorem load_or_update_fit_policy_witness :
    envImportErr.xfitOut = XfitOut.importError ∧
    (_load_or_update envImportErr "" "sel" 1).1.filter isFitCall =
      [Ev.fitCall "_minimized01" "sel" 5] ∧
    (_load_or_update envImportErr "" "sel" 1).2 = Except.ok () :=
  ⟨rfl, ((load_or_update_fit_policy envImportErr "" "sel" 1).1 rfl).1,
    ((load_or_update_fit_policy envImportErr "" "sel" 1).1 rfl).2.2.2 rfl⟩

/-- Claim C3 counterexample: in update mode, when the preferred fit is
unavailable and the fallback `cmd.fit` raises, the exception propagates
before the `update`/`delete` lines run: the temporary object
`_minimized01` is loaded but never deleted, so a residual temporary object
remains in the scene — the deletion is not performed in every execution. -/
theorem update_mode_leftover_temp_on_fit_error :
    Ev.loadRaw "_minimized01" ∈ (_load_or_update envFitFails "" "sel" 1).1 ∧
    Ev.deleteObj "_minimized01" ∉ (_load_or_update envFitFails "" "sel" 1).1 ∧
    (_load_or_update envFitFails "" "sel" 1).2 =
      Except.error (Err.pyException "fit failed") :=
  ⟨by decide, by decide, rfl⟩

/-- Claim C3 (amended): in update mode the minimized structure is loaded under
the generated temporary name (`get_unused_name`, modelled by
`env.unusedMin`), and in every execution in which the fit stage does not
propagate an exception — including those where `xfit` failed and the
failure was merely logged — the fitted coordinates at the given state are
copied onto the original selection and the temporary object is deleted
before the call returns; only when the fallback fit itself raises does the
temporary object survive. -/
theorem update_mode_temp_lifecycle (env : Env) (sele : String) (state : ℤ)
    (h : env.xfitOut = XfitOut.importError → env.fitFails = false) :
    ∃ fitEvs, (_load_or_update env "" sele state).1 =
        Ev.loadRaw env.unusedMin :: fitEvs ++
          [Ev.updateCoords sele env.unusedMin state, Ev.deleteObj env.unusedMin] ∧
      (_load_or_update env "" sele state).2 = Except.ok () := by
  cases hx : env.xfitOut
  · have hf := h hx
    exact ⟨[Ev.fitCall env.unusedMin sele 5], by simp [_load_or_update, hx, hf]⟩
  · exact ⟨[Ev.xfitCall env.unusedMin sele 100], by simp [_load_or_update, hx]⟩
  · rename_i msg
    exact ⟨[Ev.xfitCall env.unusedMin sele 100, Ev.logMsg ("xfit failed: " ++ msg)],
      by simp [_load_or_update, hx]⟩

/-- Witness for C3 (amended): the execution where `xfit` failed and was
logged still updates the coordinates and deletes the temporary object. -/
theorem update_mode_temp_lifecycle_witness :
    ∃ fitEvs, (_load_or_update envXfitFails "" "sel" 1).1 =
        Ev.loadRaw "_minimized01" :: fitEvs ++
          [Ev.updateCoords "sel" "_minimized01" 1, Ev.deleteObj "_minimized01"] ∧
      (_load_or_update envXfitFails "" "sel" 1).2 = Except.ok () :=
  update_mode_temp_lifecycle envXfitFails "sel" 1 (by decide)

/-- Claim C7: both adapters register every index produced by the Fixed-Atom
Locator before minimization starts; Engine A (openbabel) registers the
constraint under the 1-based identifier `idx + 1`
(`AddAtomConstraint(idx + 1)`), Engine B (RDKit) under the 0-based
identifier `idx` (`AddFixedPoint(idx)`).  Restricting each trace to
constraint-registration and minimization-step events yields exactly the
constraint registrations followed by the minimization steps. -/
theorem adapter_constraint_indexing (env : Env) (selection : String) (state : ℤ)
    (ffname : String) (nsteps : ℕ) (conv : ℚ) (name : String) (quiet : Bool)
    (hn : ¬env.natoms = 0) (hff : env.ffFound = true)
    (hmol : env.molParseOk = true) (hsetup : env.ffSetupOk = true)
    (hffname : ffname.startsWith "MMFF" = true ∨ ffname = "UFF") :
    (minimize_ob env selection state ffname nsteps conv name quiet).1.filter
        (fun e => isConstraintOb e || isMinStep e) =
      (get_fixed_indices env.flags).map (fun idx => Ev.addAtomConstraint (idx + 1)) ++
        [Ev.steepestDescent (nsteps / 2) conv, Ev.conjugateGradients (nsteps / 2) conv] ∧
    (minimize_rdkit env selection state ffname nsteps name quiet).1.filter
        (fun e => isFixedPoint e || isMinStep e) =
      (get_fixed_indices env.flags).map (fun idx => Ev.addFixedPoint idx) ++
        [Ev.rdMinimize nsteps] := by
  have hlou1 := lou_filter_none env name env.unusedSele state
    (fun e => isConstraintOb e || isMinStep e)
    (fun _ => rfl) (fun _ => rfl) (fun _ _ _ => rfl) (fun _ _ _ => rfl)
    (fun _ _ _ => rfl) rfl rfl (fun _ => rfl)
  have hlou2 := lou_filter_none env name env.unusedSele state
    (fun e => isFixedPoint e || isMinStep e)
    (fun _ => rfl) (fun _ => rfl) (fun _ _ _ => rfl) (fun _ _ _ => rfl)
    (fun _ _ _ => rfl) rfl rfl (fun _ => rfl)
  have hmap1 : ((get_fixed_indices env.flags).map
        (fun idx => Ev.addAtomConstraint (idx + 1))).filter
        (fun e => isConstraintOb e || isMinStep e) =
      (get_fixed_indices env.flags).map (fun idx => Ev.addAtomConstraint (idx + 1)) := by
    refine List.filter_eq_self.mpr ?_
    intro a ha
    rcases List.mem_map.mp ha with ⟨idx, _, rfl⟩
    rfl
  have hmap2 : ((get_fixed_indices env.flags).map
        (fun idx => Ev.addFixedPoint idx)).filter
        (fun e => isFixedPoint e || isMinStep e) =
      (get_fixed_indices env.flags).map (fun idx => Ev.addFixedPoint idx) := by
    refine List.filter_eq_self.mpr ?_
    intro a ha
    rcases List.mem_map.mp ha with ⟨idx, _, rfl⟩
    rfl
  constructor
  · cases hlr : (load_or_update env name env.unusedSele state).2 <;>
      by_cases hq : quiet <;>
      simp only [minimize_ob, hn, hff, hlr, hq, if_false, if_true, ite_false, ite_true,
        Bool.true_eq_false, List.filter_append, List.append_assoc, List.nil_append,
        List.append_nil, hlou1, hmap1] <;>
      simp [isConstraintOb, isMinStep]
  · cases hlr : (load_or_update env name env.unusedSele state).2 <;>
      by_cases hq : quiet <;> by_cases hc : env.rdConverged <;>
      simp only [minimize_rdkit, hn, hmol, hsetup, hffname, hlr, hq, hc, if_false,
        if_true, ite_false, ite_true, Bool.true_eq_false, List.filter_append,
        List.append_assoc, List.nil_append, List.append_nil, hlou2, hmap2] <;>
      simp [isFixedPoint, isMinStep, hffname, hlou2, hmap2, List.filter_append, hc]

/-- Witness for C7: in `envOk` the flag words are `[8, 0, 9]`, so atoms 0
and 2 are fixed; Engine A registers `1` and `3`, Engine B registers `0`
and `2`. -/
theorem adapter_constraint_indexing_witness :
    (minimize_ob envOk "all" (-1) "UFF" 500 (1 / 10000) "" true).1.filter
        (fun e => isConstraintOb e || isMinStep e) =
      [Ev.addAtomConstraint 1, Ev.addAtomConstraint 3,
        Ev.steepestDescent 250 (1 / 10000), Ev.conjugateGradients 250 (1 / 10000)] ∧
    (minimize_rdkit envOk "all" (-1) "UFF" 500 "" true).1.filter
        (fun e => isFixedPoint e || isMinStep e) =
      [Ev.addFixedPoint 0, Ev.addFixedPoint 2, Ev.rdMinimize 500] := by
  have h := adapter_constraint_indexing envOk "all" (-1) "UFF" 500 (1 / 10000) "" true
    (by decide) rfl rfl rfl (Or.inr rfl)
  exact ⟨h.1.trans rfl, h.2.trans rfl⟩

/-- Claim C4: when `N < 2` or the per-axis standard deviations summed across
axes exceed `1e-3`, the guard is an exact no-op: it returns without
calling `load_coords` (modelled as `none`), so the selection's
coordinates after the call equal the coordinates before the call. -/
theorem guard_noop_when_nondegenerate (coords : List Point) (fancy : Bool)
    (rand : ℕ → Fin 3 → ℝ)
    (h : coords.length < 2 ∨ stdSum coords > 1e-3) :
    randomize_coords_if_collapsed coords fancy rand = none := by
  unfold randomize_coords_if_collapsed
  rw [if_pos h]

/-- Witness for C4: a single point is never perturbed. -/
theorem guard_noop_when_nondegenerate_witness :
    (([((0 : ℝ), (0 : ℝ), (0 : ℝ))] : List Point).length < 2 ∨
      stdSum [((0 : ℝ), (0 : ℝ), (0 : ℝ))] > 1e-3) ∧
    randomize_coords_if_collapsed [((0 : ℝ), (0 : ℝ), (0 : ℝ))] true (fun _ _ => 0) =
      none :=
  ⟨Or.inl (by simp), guard_noop_when_nondegenerate _ _ _ (Or.inl (by simp))⟩

/-- Claim C5: on degenerate input (`N ≥ 2` and summed per-axis std-dev at most
`1e-3`) the guard writes back a coordinate block of the same length to the
same selection and state.  With the fancy flag, point `i` additionally
receives on its first two components the offset
`(sin θ · w, cos θ · w)` with `θ = angle N i = 2π·i/N` (the `N` equally
spaced `linspace` angles starting at 0, excluding `2π`) and
`w = width N = N^(1/3)`; that offset lies on the circle of radius `w`.
Both strategies then add to every coordinate of every point the jitter
`rand i a - 0.5`, which lies in `[-0.5, 0.5)` since the uniform sample
`rand i a` lies in `[0, 1)`. -/
theorem guard_degenerate_transform (coords : List Point) (rand : ℕ → Fin 3 → ℝ)
    (h2 : 2 ≤ coords.length) (hstd : stdSum coords ≤ 1e-3)
    (hrand : ∀ i a, 0 ≤ rand i a ∧ rand i a < 1) :
    randomize_coords_if_collapsed coords true rand =
      some (List.ofFn (fun i : Fin coords.length =>
        (xc (coords.get i) + Real.sin (angle coords.length i) * width coords.length
            + (rand i 0 - 0.5),
         yc (coords.get i) + Real.cos (angle coords.length i) * width coords.length
            + (rand i 1 - 0.5),
         zc (coords.get i) + (rand i 2 - 0.5)))) ∧
    randomize_coords_if_collapsed coords false rand =
      some (List.ofFn (fun i : Fin coords.length =>
        (xc (coords.get i) + (rand i 0 - 0.5),
         yc (coords.get i) + (rand i 1 - 0.5),
         zc (coords.get i) + (rand i 2 - 0.5)))) ∧
    (∀ out, randomize_coords_if_collapsed coords true rand = some out →
      out.length = coords.length) ∧
    (∀ out, randomize_coords_if_collapsed coords false rand = some out →
      out.length = coords.length) ∧
    (∀ i, (Real.sin (angle coords.length i) * width coords.length) ^ 2 +
        (Real.cos (angle coords.length i) * width coords.length) ^ 2 =
      width coords.length ^ 2) ∧
    (∀ i a, -(0.5 : ℝ) ≤ rand i a - 0.5 ∧ rand i a - 0.5 < 0.5) := by
  have hcond : ¬(coords.length < 2 ∨ stdSum coords > 1e-3) := by
    push_neg
    exact ⟨by omega, hstd⟩
  have hfancy : randomize_coords_if_collapsed coords true rand =
      some (List.ofFn (fun i : Fin coords.length =>
        (xc (coords.get i) + Real.sin (angle coords.length i) * width coords.length
            + (rand i 0 - 0.5),
         yc (coords.get i) + Real.cos (angle coords.length i) * width coords.length
            + (rand i 1 - 0.5),
         zc (coords.get i) + (rand i 2 - 0.5)))) := by
    unfold randomize_coords_if_collapsed
    rw [if_neg hcond]
    simp only [if_true, ite_true]
    congr 1
    apply List.ext_get
    · simp
    · intro n h1 hx2
      simp [List.get_ofFn, xc, yc, zc]
  have hplain : randomize_coords_if_collapsed coords false rand =
      some (List.ofFn (fun i : Fin coords.length =>
        (xc (coords.get i) + (rand i 0 - 0.5),
         yc (coords.get i) + (rand i 1 - 0.5),
         zc (coords.get i) + (rand i 2 - 0.5)))) := by
    unfold randomize_coords_if_collapsed
    rw [if_neg hcond]
    rfl
  refine ⟨hfancy, hplain, ?_, ?_, ?_, ?_⟩
  · intro out hout
    rw [hfancy] at hout
    cases hout
    simp
  · intro out hout
    rw [hplain] at hout
    cases hout
    simp
  · intro i
    rw [mul_pow, mul_pow, ← add_mul, Real.sin_sq_add_cos_sq, one_mul]
  · intro i a
    constructor
    · have := (hrand i a).1
      linarith
    · have := (hrand i a).2
      linarith

/-- Witness for C5: two coincident points at the origin, zero random
sample. -/
theorem guard_degenerate_transform_witness :
    2 ≤ ([((0 : ℝ), (0 : ℝ), (0 : ℝ)), ((0 : ℝ), (0 : ℝ), (0 : ℝ))] : List Point).length ∧
    stdSum [((0 : ℝ), (0 : ℝ), (0 : ℝ)), ((0 : ℝ), (0 : ℝ), (0 : ℝ))] ≤ 1e-3 ∧
    (randomize_coords_if_collapsed
        [((0 : ℝ), (0 : ℝ), (0 : ℝ)), ((0 : ℝ), (0 : ℝ), (0 : ℝ))] true
        (fun _ _ => 0)).isSome = true := by
  have hstd : stdSum [((0 : ℝ), (0 : ℝ), (0 : ℝ)), ((0 : ℝ), (0 : ℝ), (0 : ℝ))] = 0 := by
    simp [stdSum, popStd, mean, xc, yc, zc]
  refine ⟨by simp, by rw [hstd]; norm_num, ?_⟩
  rw [(guard_degenerate_transform
    [((0 : ℝ), (0 : ℝ), (0 : ℝ)), ((0 : ℝ), (0 : ℝ), (0 : ℝ))] (fun _ _ => 0)
    (by simp) (by rw [hstd]; norm_num) (fun i a => by norm_num)).1]
  rfl

end Psico
